import Mathlib

/-!
Verification of the AsanaPRBot event-to-review pipeline.

The definitions below are a shallow embedding of the repository's
JavaScript sources:
- `fetch_prs_final_asana.js` (Asana webhook with a Redis dedup set),
- the GitHub-webhook variant (signature verification, reviewer gate,
  bot-comment guard with a hard-coded bot login),
- the tag-witness Asana variant (dynamic bot username, comment filter,
  "AsanaAI Processed" tag attached after processing).

JavaScript strings are modelled as Lean `String`, regular-expression
matching as explicit scans over `List Char`, JS truthiness of strings as
non-emptiness, thrown-and-caught exceptions as explicit result values,
and the shared Redis set as a `List String` threaded through handlers.
-/

namespace AsanaPRBot

/-- JS falsiness of a string: `!s` is true exactly when `s` is empty. -/
def jsFalsyStr (s : String) : Bool := s.data.isEmpty

/-- JS truthiness of a nullable string (`null` and `""` are falsy). -/
def jsTruthyOpt : Option String → Bool
  | none => false
  | some s => !s.data.isEmpty

/-- JS `||` on a nullable string: the default is used when the value is falsy. -/
def jsOrStr (o : Option String) (d : String) : String :=
  match o with
  | none => d
  | some s => if s.data.isEmpty then d else s

/-- The character class `\s` of JS regular expressions, on the code points
that occur in this development (ASCII whitespace plus NBSP and BOM). -/
def jsSpace (c : Char) : Bool :=
  c == ' ' || c == '\t' || c == '\n' || c == '\r' || c == '\x0b' ||
  c == '\x0c' || c == ' ' || c == '﻿'

/-- JS `.` matches every character except a line terminator. -/
def notLineTerm (c : Char) : Bool :=
  !(c == '\n' || c == '\r' || c == ' ' || c == ' ')

/-- JS `String.prototype.trim`: strip whitespace from both ends. -/
def jsTrim (s : String) : String :=
  String.mk (((s.data.dropWhile jsSpace).reverse.dropWhile jsSpace).reverse)

/-! ## Target Resolver: `extractPrUrlFromTask` and `parseGithubUrl`

Source (`fetch_prs_final_asana.js`, identical in the tag-witness variant):

- `extractPrUrlFromTask`: first match of `/https:\/\/github\.com\/[^\s]+/`
  over the task's `notes`, or `null`.
- `parseGithubUrl`: first match of
  `/github\.com\/([^\/]+)\/([^\/]+)\/pull\/(\d+)/`, returning the three
  captured strings, or `{}`.

Both regexes are embedded as leftmost-match scans; the greedy `[^\s]+`,
`[^\/]+` and `\d+` pieces are `takeWhile` runs (a run of characters from
a class that excludes the following delimiter cannot backtrack). -/

/-- The literal part of the URL-extraction regex. -/
def HTTPS_GITHUB : List Char := "https://github.com/".data

/-- The leading literal of the pull-request URL regex. -/
def GITHUB_COM : List Char := "github.com/".data

/-- The `pull/` literal of the pull-request URL regex. -/
def PULL_SEG : List Char := "pull/".data

/-- Try the URL-extraction regex at the current position: the literal
`https://github.com/` followed by a non-empty run of non-space characters. -/
def matchUrlAt (cs : List Char) : Option (List Char) :=
  if HTTPS_GITHUB.isPrefixOf cs then
    match (cs.drop HTTPS_GITHUB.length).takeWhile (fun c => !jsSpace c) with
    | [] => none
    | d :: ds => some (HTTPS_GITHUB ++ d :: ds)
  else none

/-- Leftmost match of the URL-extraction regex. -/
def extractFirstUrl : List Char → Option (List Char)
  | [] => none
  | c :: cs =>
    match matchUrlAt (c :: cs) with
    | some m => some m
    | none => extractFirstUrl cs

/-- `extractPrUrlFromTask`: the PR URL is assumed to be in the task
description (`taskDetails.notes`); returns the first matching substring. -/
def extractPrUrlFromTask (notes : String) : Option String :=
  (extractFirstUrl notes.data).map String.mk

/-- One `([^\/]+)\/` step of the pull-request URL regex: a non-empty run of
non-slash characters followed by a slash; returns the run and the rest. -/
def splitSeg (cs : List Char) : Option (List Char × List Char) :=
  match cs.dropWhile (fun c => !(c == '/')) with
  | [] => none
  | _ :: rest =>
    if (cs.takeWhile (fun c => !(c == '/'))).isEmpty then none
    else some (cs.takeWhile (fun c => !(c == '/')), rest)

/-- Try the pull-request URL regex at the current position:
`github.com/` owner `/` repo `/pull/` digits. -/
def matchPrAt (cs : List Char) : Option (String × String × String) :=
  if GITHUB_COM.isPrefixOf cs then
    match splitSeg (cs.drop GITHUB_COM.length) with
    | none => none
    | some (o, r1) =>
      match splitSeg r1 with
      | none => none
      | some (re, r2) =>
        if PULL_SEG.isPrefixOf r2 then
          match (r2.drop PULL_SEG.length).takeWhile Char.isDigit with
          | [] => none
          | d :: ds => some (String.mk o, String.mk re, String.mk (d :: ds))
        else none
  else none

/-- Leftmost match of the pull-request URL regex. -/
def parseGithubUrlL : List Char → Option (String × String × String)
  | [] => none
  | c :: cs =>
    match matchPrAt (c :: cs) with
    | some t => some t
    | none => parseGithubUrlL cs

/-- `parseGithubUrl`: decompose a URL into `{owner, repo, prNumber}`; the
number is the captured digit string. `none` models the `{}` return. -/
def parseGithubUrl (url : String) : Option (String × String × String) :=
  parseGithubUrlL url.data

/-- Outcome of `processAsanaTask`'s target-resolution phase. -/
inductive TaskOutcome
  | noTarget
  | malformed
  | process (owner repo prNumber : String)
deriving DecidableEq, Repr

/-- The resolution phase of `processAsanaTask`: extract the first URL from
the description (log `No PR URL found` when absent), parse it, and reject
with `Invalid PR URL` when a field is missing or falsy
(`!owner || !repo || !prNumber`). -/
def resolveTaskTarget (notes : String) : TaskOutcome :=
  match extractPrUrlFromTask notes with
  | none => TaskOutcome.noTarget
  | some url =>
    match parseGithubUrl url with
    | none => TaskOutcome.malformed
    | some (o, r, n) =>
      if jsFalsyStr o || jsFalsyStr r || jsFalsyStr n then TaskOutcome.malformed
      else TaskOutcome.process o r n

/-! ## Data model for GitHub state and the external collaborators

The GitHub REST client, the reasoning engine and the publisher are external
collaborators; their call results enter the embedding as explicit values
(`ReasonResult`, `PubResult`). Exceptions thrown by them are caught by the
surrounding `try`/`catch` blocks in the source, which is modelled by the
pipeline functions being total and recording which side effects happened. -/

/-- An issue comment as used by the pipelines: `comment.user.login`,
`comment.user.type` and `comment.body`. -/
structure GHComment where
  login : String
  userType : String
  body : String
deriving DecidableEq, Repr

/-- Pull-request metadata used by the prompt compositor (label, assignee
and reviewer names are the strings the source maps out of the payload). -/
structure PR where
  number : Nat
  title : String
  body : Option String
  labels : List String
  assignees : List String
  reviewers : List String
deriving DecidableEq, Repr

/-- Result of the reasoning-engine call (`openai.chat.completions.create`):
either a response text or a thrown error. -/
inductive ReasonResult
  | ok (text : String)
  | failed
deriving DecidableEq, Repr

/-- Result of the publisher call (`octokit.issues.createComment`). -/
inductive PubResult
  | ok
  | writeError
deriving DecidableEq, Repr

/-! ## Context Compositor (`fetch_prs_final_asana.js` `processPullRequest`) -/

/-- One line of the comments section: `- **login:** body`. -/
def commentLine (c : GHComment) : String :=
  "- **" ++ c.login ++ ":** " ++ c.body

/-- `list.join(", ") || "None"`. -/
def joinOrNone (xs : List String) : String :=
  if (String.intercalate ", " xs).data.isEmpty then "None"
  else String.intercalate ", " xs

/-- The summary section of the prompt. -/
def summarySection (pr : PR) : String :=
  "### Pull Request #" ++ toString pr.number ++ ": " ++ pr.title ++
  "\n\n**Description:**\n" ++ jsOrStr pr.body "No description provided." ++ "\n\n"

/-- The diff section of the prompt. -/
def diffSection (diff : String) : String :=
  "**Diff:**\n```diff\n" ++ diff ++ "\n```\n\n"

/-- The labels/assignees/reviewers section of the prompt. -/
def contextSection (pr : PR) : String :=
  "**Labels:** " ++ joinOrNone pr.labels ++ "\n**Assignees:** " ++
  joinOrNone pr.assignees ++ "\n**Reviewers:** " ++ joinOrNone pr.reviewers ++ "\n\n"

/-- The comments section built from a given comment list: empty when the
joined list is falsy, otherwise a `**Comments:**` block. -/
def jsCommentsSection (cs : List GHComment) : String :=
  if (String.intercalate "\n" (cs.map commentLine)).data.isEmpty then ""
  else "**Comments:**\n" ++ String.intercalate "\n" (cs.map commentLine) ++ "\n\n"

/-- `fetch_prs_final_asana.js` includes all comments without filtering out
bot comments (per its own source comment). -/
def commentsSection_final (comments : List GHComment) : String :=
  jsCommentsSection comments

/-- The `**Additional Context from Asana:**` block, present only when the
context string is truthy. -/
def asanaContextSection (context : Option String) : String :=
  if jsTruthyOpt context then
    "**Additional Context from Asana:**\n" ++ context.getD "" ++ "\n\n"
  else ""

/-- The per-PR prompt body of `fetch_prs_final_asana.js`. -/
def basePrompt (pr : PR) (diff : String) (comments : List GHComment)
    (context : Option String) : String :=
  summarySection pr ++ diffSection diff ++ contextSection pr ++
  commentsSection_final comments ++ asanaContextSection context ++ "\n---\n\n"

/-- The instruction-constrained final prompt (`if (context)` branch). -/
def constrainedPrompt (context prompt : String) : String :=
  "As an expert code reviewer, please focus on the following instruction while reviewing the pull request:\n\n\"" ++
  context ++ "\"\n\nHere is the PR information:\n\n" ++ prompt ++
  "\n\nProvide a concise and specific response addressing the instruction above. Avoid unnecessary information or general feedback. Ensure accuracy and refrain from including any information not present in the PR data.\n\n"

/-- The unconstrained-review final prompt (`else` branch). -/
def unconstrainedPrompt (prompt : String) : String :=
  "As an expert code reviewer, please review the following pull request:\n\n" ++
  prompt ++
  "\n\nPlease focus on potential issues, improvements, or suggestions. Be succinct and clear in your feedback. If the PR is ready to merge, please indicate that as well. If you notice the PR addresses disparate issues better handled separately, suggest splitting it into smaller, focused PRs.\n\nProvide a concise response without unnecessary elaboration or hallucinations.\n\n"

/-- The bot-introduction line prefixed to the published comment. -/
def botIntroduction : String :=
  "👋 Hi, I'm **AsanaPRBot**, your assistant for concise PR reviews."

/-- Observable result of one `processPullRequest` run of
`fetch_prs_final_asana.js`. -/
structure PRRunResult where
  invoked : Bool
  constrained : Bool
  promptUsed : String
  posted : Bool
  postedBody : Option String
deriving DecidableEq, Repr

/-- `processPullRequest` of `fetch_prs_final_asana.js`: fetches the PR and
its comments, composes the prompt (no bot-comment guard, no comment
filtering), invokes the reasoning engine and posts the response prefixed
with the bot introduction. All thrown errors are caught by its own
`try`/`catch`, so the caller always sees a normal return. -/
def processPullRequest_final (pr : PR) (diff : String) (comments : List GHComment)
    (context : Option String) (reason : ReasonResult) (pub : PubResult) : PRRunResult :=
  let prompt := basePrompt pr diff comments context
  let fp := if jsTruthyOpt context then constrainedPrompt (context.getD "") prompt
            else unconstrainedPrompt prompt
  match reason with
  | ReasonResult.failed => ⟨true, jsTruthyOpt context, fp, false, none⟩
  | ReasonResult.ok text =>
    match pub with
    | PubResult.writeError => ⟨true, jsTruthyOpt context, fp, false, none⟩
    | PubResult.ok =>
      ⟨true, jsTruthyOpt context, fp, true, some (botIntroduction ++ "\n\n" ++ text)⟩

/-- `processAsanaTask` of `fetch_prs_final_asana.js`: resolve the target
from the task notes, then process the PR; `none` when resolution rejected
(`No PR URL found` / `Invalid PR URL`). -/
def processAsanaTask_final (notes : String) (context : Option String) (pr : PR)
    (diff : String) (comments : List GHComment) (reason : ReasonResult)
    (pub : PubResult) : Option PRRunResult :=
  match resolveTaskTarget notes with
  | TaskOutcome.process _ _ _ =>
    some (processPullRequest_final pr diff comments context reason pub)
  | _ => none

/-! ## Instruction extraction (`processAsanaStory` of `fetch_prs_final_asana.js`)

The story text is first checked with the case-sensitive
`commentText.includes('@AsanaPRBot')`, then matched against
`/@AsanaPRBot\s*(.*)/i`: the leftmost case-insensitive occurrence of the
marker, a greedy whitespace run, and a capture of the rest of that line.
The instruction is the trimmed capture, or `null` when the match failed. -/

/-- The mention marker. -/
def MARKER : List Char := "@AsanaPRBot".data

/-- Case-insensitively strip the pattern from the front of the text. -/
def ciStrip : List Char → List Char → Option (List Char)
  | [], rest => some rest
  | _ :: _, [] => none
  | p :: ps, c :: cs => if p.toLower == c.toLower then ciStrip ps cs else none

/-- Leftmost case-insensitive occurrence of the pattern; returns the suffix
that follows it. -/
def findMarkerCI (pat : List Char) : List Char → Option (List Char)
  | [] => ciStrip pat []
  | c :: cs =>
    match ciStrip pat (c :: cs) with
    | some r => some r
    | none => findMarkerCI pat cs

/-- Case-sensitive substring test (`String.prototype.includes`). -/
def hasSubstr (pat : List Char) : List Char → Bool
  | [] => pat.isEmpty
  | c :: cs => pat.isPrefixOf (c :: cs) || hasSubstr pat cs

/-- The instruction-extraction prefix of `processAsanaStory` on the story
text. Outer `none`: the marker is absent and the story is skipped.
`some instr`: the task is processed with `instr` as context (`instr` is
`null` only if the regex match failed). -/
def storyInstructionL (cs : List Char) : Option (Option String) :=
  if hasSubstr MARKER cs then
    match findMarkerCI MARKER cs with
    | some rest =>
      some (some (jsTrim (String.mk ((rest.dropWhile jsSpace).takeWhile notLineTerm))))
    | none => some none
  else none

/-- `storyInstructionL` on a story text given as a string. -/
def storyInstruction (text : String) : Option (Option String) :=
  storyInstructionL text.data

/-! ## Tag-witness pipeline (the `AsanaAI Processed` variant)

`processPullRequest` there resolves the acting identity dynamically
(`getGitHubBotUsername`), skips when a comment by that login already
exists, filters the comment list for the prompt, and catches every thrown
error itself; `processAsanaTask` skips tasks already tagged
`AsanaAI Processed` and attaches that tag after `processPullRequest`
returns. -/

/-- `comments.some(comment => comment.user.login === botUsername)`. -/
def botCommentExists (botUsername : String) (comments : List GHComment) : Bool :=
  comments.any (fun c => c.login == botUsername)

/-- `comments.filter(c => c.user.type !== "Bot" && c.user.login !== botUsername)`. -/
def humanComments_p1 (botUsername : String) (comments : List GHComment) : List GHComment :=
  comments.filter (fun c => !(c.userType == "Bot") && !(c.login == botUsername))

/-- The comments section of the tag-witness variant, built from the
filtered list only. -/
def commentsSection_p1 (botUsername : String) (comments : List GHComment) : String :=
  jsCommentsSection (humanComments_p1 botUsername comments)

/-- Observable result of one `processPullRequest` run of the tag-witness
variant: whether the reasoning engine was invoked and whether a comment
was posted. -/
structure P1Result where
  invoked : Bool
  posted : Bool
deriving DecidableEq, Repr

/-- `processPullRequest` of the tag-witness variant. The bot-comment guard
returns early; thrown reasoning or publish errors are caught by the
function's own `try`/`catch`, so it always returns normally. -/
def processPullRequest_p1 (botUsername : String) (comments : List GHComment)
    (reason : ReasonResult) (pub : PubResult) : P1Result :=
  if botCommentExists botUsername comments then ⟨false, false⟩
  else
    match reason with
    | ReasonResult.failed => ⟨true, false⟩
    | ReasonResult.ok _ =>
      match pub with
      | PubResult.writeError => ⟨true, false⟩
      | PubResult.ok => ⟨true, true⟩

/-- Side effects of one `processAsanaTask` run of the tag-witness variant. -/
structure P1Effects where
  invoked : Bool
  posted : Bool
  tagAttached : Bool
deriving DecidableEq, Repr

/-- `processAsanaTask` of the tag-witness variant: skip when the task
already carries the `AsanaAI Processed` tag, resolve the target, run
`processPullRequest` (which never throws), then `addTagToTask` attaches
the processed tag unconditionally. -/
def processAsanaTask_p1 (tags : List String) (notes : String) (botUsername : String)
    (comments : List GHComment) (reason : ReasonResult) (pub : PubResult) : P1Effects :=
  if tags.contains "AsanaAI Processed" then ⟨false, false, false⟩
  else
    match resolveTaskTarget notes with
    | TaskOutcome.process _ _ _ =>
      let r := processPullRequest_p1 botUsername comments reason pub
      ⟨r.invoked, r.posted, true⟩
    | _ => ⟨false, false, false⟩

/-! ## GitHub webhook variant: signature middleware and reviewer gate -/

/-- `verifySignature` succeeds (does not throw) exactly when the
`x-hub-signature-256` header equals `'sha256=' + hmac.digest('hex')`.
The HMAC primitive itself is out of scope and passed in as `hmacHex`. -/
def verifySignatureOk (hmacHex : String → String → String) (secret : String)
    (sigHeader : Option String) (rawBody : String) : Bool :=
  sigHeader == some ("sha256=" ++ hmacHex secret rawBody)

/-- State threaded through the Express middleware chain for one request. -/
structure MwState where
  bodyParsed : Bool
  rejected : Bool
deriving DecidableEq, Repr

/-- One `express.json` middleware. Modelled from body-parser semantics:
the parser runs its `verify` callback while parsing the raw body, but
skips entirely (calls `next()`) when the body was already parsed by an
earlier json middleware (`req._body`); a throwing `verify` rejects the
request before the route handler runs. -/
def jsonParserMw (verify : Option (String → Bool)) (rawBody : String)
    (st : MwState) : MwState :=
  if st.rejected then st
  else if st.bodyParsed then st
  else
    match verify with
    | none => ⟨true, false⟩
    | some v => if v rawBody then ⟨true, false⟩ else ⟨st.bodyParsed, true⟩

/-- Outcome of the GitHub webhook route handler. -/
inductive GHOutcome
  | processed
  | notReviewer
  | ignored
deriving DecidableEq, Repr

/-- The GitHub `/webhook` route handler: on a `pull_request` /
`review_requested` event, reject unless the requested reviewer is the
hard-coded `haghdaee`, otherwise process the PR; every branch responds
with status 200. -/
def githubWebhookHandler (event action requestedReviewer : String) : GHOutcome × Nat :=
  if event == "pull_request" && action == "review_requested" then
    if !(requestedReviewer == "haghdaee") then (GHOutcome.notReviewer, 200)
    else (GHOutcome.processed, 200)
  else (GHOutcome.ignored, 200)

/-- The GitHub webhook app as registered in the source:
`app.use(express.json())`, then `app.use(express.json({verify:
verifySignature}))`, then the route. Returns whether the request was
rejected by the middleware and, when it was not, the handler's result. -/
def githubApp (hmacHex : String → String → String) (secret : String)
    (sigHeader : Option String) (rawBody : String)
    (event action reviewer : String) : Bool × Option (GHOutcome × Nat) :=
  let st1 := jsonParserMw none rawBody ⟨false, false⟩
  let st2 := jsonParserMw (some (fun b => verifySignatureOk hmacHex secret sigHeader b)) rawBody st1
  if st2.rejected then (true, none)
  else (false, some (githubWebhookHandler event action reviewer))

/-- A concrete stand-in for the HMAC-SHA256 hex digest (the cryptographic
primitive is an external collaborator). -/
def hmacStub : String → String → String := fun _ _ => "0a"

/-! ## Asana webhook of `fetch_prs_final_asana.js` with the Redis dedup set

The shared `processedEvents` Redis set is modelled as a `List String`
(membership is what matters); `SISMEMBER` and `SADD` are its two
operations. -/

/-- `redis.sismember('processedEvents', key)`. -/
def sismember (store : List String) (k : String) : Bool := store.contains k

/-- `redis.sadd('processedEvents', key)`. -/
def sadd (store : List String) (k : String) : List String :=
  if store.contains k then store else store ++ [k]

/-- One inbound Asana event together with the environment its processing
would observe (task notes, PR state, collaborator results). -/
structure AsanaEventEnv where
  gid : String
  resourceType : String
  action : String
  resourceSubtype : String
  storyType : String
  storyText : String
  notes : String
  pr : PR
  diff : String
  comments : List GHComment
  reason : ReasonResult
  pub : PubResult
deriving DecidableEq, Repr

/-- What one iteration of the webhook's event loop did. -/
inductive EventResult
  | alreadySeen
  | taskHandled (r : Option PRRunResult)
  | storyHandled (r : Option PRRunResult)
  | ignored
deriving DecidableEq, Repr

/-- `processAsanaStory` of `fetch_prs_final_asana.js`: skip non-comment
stories and stories without the mention marker; otherwise process the
task with the extracted instruction as context. -/
def processAsanaStory_final (ev : AsanaEventEnv) : Option PRRunResult :=
  if !(ev.storyType == "comment") then none
  else
    match storyInstruction ev.storyText with
    | none => none
    | some instr =>
      processAsanaTask_final ev.notes instr ev.pr ev.diff ev.comments ev.reason ev.pub

/-- One iteration of the webhook's event loop: skip already-processed
events, handle `task`/`added` and `story`/`added`/`comment_added` events
(marking the key processed afterwards), ignore everything else. -/
def handleAsanaEvent (store : List String) (ev : AsanaEventEnv) :
    List String × EventResult :=
  if sismember store ev.gid then (store, EventResult.alreadySeen)
  else if ev.resourceType == "task" && ev.action == "added" then
    (sadd store ev.gid, EventResult.taskHandled
      (processAsanaTask_final ev.notes none ev.pr ev.diff ev.comments ev.reason ev.pub))
  else if ev.resourceType == "story" && ev.action == "added" &&
      ev.resourceSubtype == "comment_added" then
    (sadd store ev.gid, EventResult.storyHandled (processAsanaStory_final ev))
  else (store, EventResult.ignored)

/-- The webhook's event loop over the delivered list. -/
def runAsanaEvents : List String → List AsanaEventEnv → List String × List EventResult
  | store, [] => (store, [])
  | store, ev :: evs =>
    let p := handleAsanaEvent store ev
    let q := runAsanaEvents p.1 evs
    (q.1, p.2 :: q.2)

/-- The Asana `/webhook` route of `fetch_prs_final_asana.js`: echo the
handshake header with 200, acknowledge empty deliveries with 200, and
acknowledge processed deliveries with 200 (all per-event errors are
caught inside the processing functions). Returns the HTTP status and the
resulting dedup store. -/
def asanaWebhookResponse (store : List String) (xHookSecret : Option String)
    (events : Option (List AsanaEventEnv)) : Nat × List String :=
  match xHookSecret with
  | some _ => (200, store)
  | none =>
    match events with
    | none => (200, store)
    | some [] => (200, store)
    | some (ev :: evs) => (200, (runAsanaEvents store (ev :: evs)).1)

/-- The published/invoked observables of one event-loop result. -/
def eventPostedFlag : EventResult → Option Bool
  | EventResult.taskHandled (some r) => some r.posted
  | EventResult.storyHandled (some r) => some r.posted
  | _ => none

/-- Whether the reasoning engine was invoked for one event-loop result. -/
def eventInvokedFlag : EventResult → Option Bool
  | EventResult.taskHandled (some r) => some r.invoked
  | EventResult.storyHandled (some r) => some r.invoked
  | _ => none

/-! ## Concurrency model of the dedup admission

Each inbound delivery runs the loop body for its event concurrently with
other deliveries of the same key. The body performs three atomic actions
against the shared store, in order: the `SISMEMBER` read, the processing
(the expensive side effect), and the `SADD` write. A schedule interleaves
the steps of two handlers for the same key. -/

/-- Program counter and observations of one webhook handler for one event:
`pc = 0` before the `SISMEMBER` read, `1` before processing, `2` before
the `SADD` write, `3` done. `skipped` records that the handler observed
the key as already processed; `invoked` that it ran the processing. -/
structure HandlerState where
  pc : Nat
  skipped : Bool
  invoked : Bool
deriving DecidableEq, Repr

/-- Two concurrent handlers sharing the Redis store. -/
structure SysState where
  store : List String
  h1 : HandlerState
  h2 : HandlerState
deriving DecidableEq, Repr

/-- One atomic step of a handler for key `k`. -/
def stepHandler (k : String) (store : List String) (h : HandlerState) :
    List String × HandlerState :=
  if h.pc == 0 then
    if sismember store k then (store, ⟨3, true, h.invoked⟩)
    else (store, ⟨1, h.skipped, h.invoked⟩)
  else if h.pc == 1 then (store, ⟨2, h.skipped, true⟩)
  else if h.pc == 2 then (sadd store k, ⟨3, h.skipped, h.invoked⟩)
  else (store, h)

/-- Schedule step: `true` steps the first handler, `false` the second. -/
def stepSys (k : String) (b : Bool) (s : SysState) : SysState :=
  if b then
    let p := stepHandler k s.store s.h1
    ⟨p.1, p.2, s.h2⟩
  else
    let p := stepHandler k s.store s.h2
    ⟨p.1, s.h1, p.2⟩

/-- Run a schedule of interleaved steps. -/
def runSched (k : String) : List Bool → SysState → SysState
  | [], s => s
  | b :: bs, s => runSched k bs (stepSys k b s)

/-- Both handlers pending on an empty store. -/
def initSys : SysState := ⟨[], ⟨0, false, false⟩, ⟨0, false, false⟩⟩

/-! ## Helper lemmas -/

/-- A `takeWhile` run satisfies its predicate throughout. -/
theorem takeWhile_all_pred {α : Type} (p : α → Bool) (l : List α) :
    (l.takeWhile p).all p = true := by
  induction l with
  | nil => rfl
  | cons a l ih =>
    by_cases h : p a = true
    · simp [List.takeWhile_cons_of_pos h, h, ih]
    · simp [List.takeWhile_cons_of_neg h]

/-- `dropWhile` consumes a list whose elements all satisfy the predicate. -/
theorem dropWhile_all_nil {α : Type} (p : α → Bool) (l : List α)
    (h : l.all p = true) : l.dropWhile p = [] := by
  induction l with
  | nil => rfl
  | cons a l ih =>
    simp only [List.all_cons, Bool.and_eq_true] at h
    simp [List.dropWhile_cons_of_pos h.1, ih h.2]

/-- A nonempty list is not `isEmpty`. -/
theorem isEmpty_false_of_ne_nil {α : Type} (l : List α) (h : l ≠ []) :
    l.isEmpty = false := by
  cases l with
  | nil => exact absurd rfl h
  | cons a l => rfl

/-- A segment produced by `splitSeg` is nonempty. -/
theorem splitSeg_ne_nil {cs s r : List Char} (h : splitSeg cs = some (s, r)) :
    s ≠ [] := by
  unfold splitSeg at h
  split at h
  · exact absurd h (by simp)
  · split at h
    · exact absurd h (by simp)
    · rename_i hne
      simp only [Option.some.injEq, Prod.mk.injEq] at h
      intro hnil
      exact hne (by rw [h.1, hnil]; rfl)

/-- The fields of a successful `matchPrAt` are nonempty, and the number is
a digit string. -/
theorem matchPrAt_fields {cs : List Char} {o r n : String}
    (h : matchPrAt cs = some (o, r, n)) :
    o.data ≠ [] ∧ r.data ≠ [] ∧ n.data ≠ [] ∧ n.data.all Char.isDigit = true := by
  unfold matchPrAt at h
  split at h
  · split at h
    · exact absurd h (by simp)
    · rename_i p1 hseg1
      split at h
      · exact absurd h (by simp)
      · rename_i p2 hseg2
        split at h
        · split at h
          · exact absurd h (by simp)
          · rename_i d ds hdig
            simp only [Option.some.injEq, Prod.mk.injEq] at h
            obtain ⟨ho, hr, hn⟩ := h
            refine ⟨?_, ?_, ?_, ?_⟩
            · rw [← ho]
              exact splitSeg_ne_nil hseg1
            · rw [← hr]
              exact splitSeg_ne_nil hseg2
            · rw [← hn]
              simp
            · rw [← hn]
              show (d :: ds).all Char.isDigit = true
              rw [← hdig]
              exact takeWhile_all_pred Char.isDigit _
        · exact absurd h (by simp)
  · exact absurd h (by simp)

/-- The fields of a successful `parseGithubUrlL` are nonempty, and the
number is a digit string. -/
theorem parseGithubUrlL_fields : ∀ (cs : List Char) {o r n : String},
    parseGithubUrlL cs = some (o, r, n) →
    o.data ≠ [] ∧ r.data ≠ [] ∧ n.data ≠ [] ∧ n.data.all Char.isDigit = true := by
  intro cs
  induction cs with
  | nil => intro o r n h; exact absurd h (by simp [parseGithubUrlL])
  | cons c cs ih =>
    intro o r n h
    rw [parseGithubUrlL] at h
    split at h
    · rename_i t ht
      simp only [Option.some.injEq] at h
      exact matchPrAt_fields (h ▸ ht)
    · exact ih h

/-- The fields of a successful `parseGithubUrl` are nonempty, and the
number is a digit string. -/
theorem parseGithubUrl_fields {url o r n : String}
    (h : parseGithubUrl url = some (o, r, n)) :
    o.data ≠ [] ∧ r.data ≠ [] ∧ n.data ≠ [] ∧ n.data.all Char.isDigit = true :=
  parseGithubUrlL_fields url.data h

/-! ## Claim theorems -/

/-- Claim C1: the admission of an event key is not an atomic test-and-set:
the handler performs a `SISMEMBER` read and a separate, later `SADD`
write. In the interleaving where both handlers read before either writes,
both observe the key as unseen and both invoke the processing, refuting
that exactly one of two concurrent admit calls observes `admitted: true`
(the non-overlapping schedule, in contrast, does skip the second
delivery). -/
theorem dedup_admission_not_atomic :
    ((runSched "42" [true, false, true, true, false, false] initSys).h1.skipped = false ∧
     (runSched "42" [true, false, true, true, false, false] initSys).h2.skipped = false ∧
     (runSched "42" [true, false, true, true, false, false] initSys).h1.invoked = true ∧
     (runSched "42" [true, false, true, true, false, false] initSys).h2.invoked = true) ∧
    ((runSched "42" [true, true, true, false, false, false] initSys).h1.invoked = true ∧
     (runSched "42" [true, true, true, false, false, false] initSys).h2.skipped = true ∧
     (runSched "42" [true, true, true, false, false, false] initSys).h2.invoked = false) := by
  decide

/-- Claim C2: when the publisher's comment-creation write fails, the
pipeline still records both witnesses, because `processPullRequest`
catches the error and returns normally: the tag-witness variant attaches
the `AsanaAI Processed` tag, and the webhook of the final variant adds
the event key to the `processedEvents` set, while no comment was posted. -/
theorem publish_failure_still_records_witness :
    processAsanaTask_p1 [] "https://github.com/a/b/pull/1" "mybot" []
      (ReasonResult.ok "review") PubResult.writeError = ⟨true, false, true⟩ ∧
    (handleAsanaEvent [] ⟨"k1", "task", "added", "", "", "",
      "https://github.com/a/b/pull/1", ⟨1, "T", none, [], [], []⟩, "d", [],
      ReasonResult.ok "review", PubResult.writeError⟩).1 = ["k1"] ∧
    eventPostedFlag (handleAsanaEvent [] ⟨"k1", "task", "added", "", "", "",
      "https://github.com/a/b/pull/1", ⟨1, "T", none, [], [], []⟩, "d", [],
      ReasonResult.ok "review", PubResult.writeError⟩).2 = some false ∧
    eventInvokedFlag (handleAsanaEvent [] ⟨"k1", "task", "added", "", "", "",
      "https://github.com/a/b/pull/1", ⟨1, "T", none, [], [], []⟩, "d", [],
      ReasonResult.ok "review", PubResult.writeError⟩).2 = some true := by
  decide

/-- Claim C3 (amended): in the tag-witness variant, a comment list already
containing a comment by the resolved bot username makes `processPullRequest`
return before the reasoning-engine call, so nothing is invoked or posted. -/
theorem bot_comment_guard_skips_p1 (botUsername : String) (comments : List GHComment)
    (reason : ReasonResult) (pub : PubResult)
    (h : botCommentExists botUsername comments = true) :
    processPullRequest_p1 botUsername comments reason pub = ⟨false, false⟩ := by
  simp [processPullRequest_p1, h]

/-- Witness for the C3 theorem at a concrete comment list. -/
theorem bot_comment_guard_skips_p1_witness :
    botCommentExists "mybot" [⟨"mybot", "User", "prior review"⟩] = true ∧
    processPullRequest_p1 "mybot" [⟨"mybot", "User", "prior review"⟩]
      (ReasonResult.ok "t") PubResult.ok = ⟨false, false⟩ :=
  ⟨by decide, bot_comment_guard_skips_p1 "mybot" _ _ _ (by decide)⟩

/-- Claim C3 counterexample: `processPullRequest` of
`fetch_prs_final_asana.js` has no completion guard at all — with a comment
by the actor already present it still invokes the reasoning engine and
posts a new comment. -/
theorem no_completion_guard_in_final_pipeline :
    botCommentExists "mybot" [⟨"mybot", "User", "earlier bot review"⟩] = true ∧
    (processPullRequest_final ⟨1, "T", none, [], [], []⟩ "d"
      [⟨"mybot", "User", "earlier bot review"⟩] none (ReasonResult.ok "text")
      PubResult.ok).invoked = true ∧
    (processPullRequest_final ⟨1, "T", none, [], [], []⟩ "d"
      [⟨"mybot", "User", "earlier bot review"⟩] none (ReasonResult.ok "text")
      PubResult.ok).posted = true := by
  exact ⟨by decide, rfl, rfl⟩

/-- Claim C4 (amended): in the tag-witness variant the comments section is
built only from `humanComments`, which contains exactly the fetched
comments whose author is neither of type `Bot` nor the resolved bot
username. -/
theorem context_excludes_actor_comments_p1 (botUsername : String)
    (comments : List GHComment) :
    (∀ c, c ∈ humanComments_p1 botUsername comments →
      c.login ≠ botUsername ∧ c.userType ≠ "Bot") ∧
    (∀ c, c ∈ comments → c.userType ≠ "Bot" → c.login ≠ botUsername →
      c ∈ humanComments_p1 botUsername comments) ∧
    commentsSection_p1 botUsername comments =
      jsCommentsSection (humanComments_p1 botUsername comments) := by
  refine ⟨?_, ?_, rfl⟩
  · intro c hc
    simp only [humanComments_p1, List.mem_filter, Bool.and_eq_true,
      Bool.not_eq_true', beq_eq_false_iff_ne] at hc
    exact ⟨hc.2.2, hc.2.1⟩
  · intro c hc h1 h2
    simp only [humanComments_p1, List.mem_filter, Bool.and_eq_true,
      Bool.not_eq_true', beq_eq_false_iff_ne]
    exact ⟨hc, h1, h2⟩

/-- Witness for the C4 theorem at a concrete comment list. -/
theorem context_excludes_actor_comments_p1_witness :
    (⟨"human", "User", "looks good"⟩ : GHComment) ∈
      humanComments_p1 "mybot" [⟨"mybot", "User", "bot says"⟩, ⟨"human", "User", "looks good"⟩] ∧
    ("human" : String) ≠ "mybot" :=
  ⟨(context_excludes_actor_comments_p1 "mybot"
      [⟨"mybot", "User", "bot says"⟩, ⟨"human", "User", "looks good"⟩]).2.1
      ⟨"human", "User", "looks good"⟩ (by decide) (by decide) (by decide),
   by decide⟩

/-- Claim C4 counterexample: the comments section of
`fetch_prs_final_asana.js` includes every fetched comment without
filtering, so a comment authored by the actor appears in the composed
context. -/
theorem comments_context_includes_actor_final :
    botCommentExists "mybot" [⟨"mybot", "User", "prior bot review"⟩] = true ∧
    commentsSection_final [⟨"mybot", "User", "prior bot review"⟩] =
      "**Comments:**\n- **mybot:** prior bot review\n\n" := by
  exact ⟨by decide, by decide⟩

/-- Claim C5: the signature check is dead code: `app.use(express.json())`
is registered before `app.use(express.json({verify: verifySignature}))`,
and a json body parser skips a body that an earlier parser already parsed,
so `verifySignature` never runs. On a request whose signature header does
not match the keyed digest (the verifier itself would reject it), the
route handler still runs and processes the event. -/
theorem signature_verification_never_runs :
    verifySignatureOk hmacStub "secret" (some "bad") "payload" = false ∧
    (githubApp hmacStub "secret" (some "bad") "payload"
      "pull_request" "review_requested" "haghdaee").1 = false ∧
    (githubApp hmacStub "secret" (some "bad") "payload"
      "pull_request" "review_requested" "haghdaee").2 =
      some (GHOutcome.processed, 200) := by
  decide

/-- Claim C6: on a `pull_request` / `review_requested` event the pipeline
processes the pull request exactly when the requested reviewer's login
string-equals the configured actor `haghdaee`; otherwise it answers 200
without processing. -/
theorem review_requested_actor_gate (reviewer : String) :
    (reviewer = "haghdaee" →
      githubWebhookHandler "pull_request" "review_requested" reviewer =
        (GHOutcome.processed, 200)) ∧
    (reviewer ≠ "haghdaee" →
      githubWebhookHandler "pull_request" "review_requested" reviewer =
        (GHOutcome.notReviewer, 200)) := by
  constructor
  · intro h
    subst h
    decide
  · intro h
    simp [githubWebhookHandler, h]

/-- Witness for the C6 theorem at the configured actor and at `bob`. -/
theorem review_requested_actor_gate_witness :
    githubWebhookHandler "pull_request" "review_requested" "haghdaee" =
      (GHOutcome.processed, 200) ∧
    githubWebhookHandler "pull_request" "review_requested" "bob" =
      (GHOutcome.notReviewer, 200) :=
  ⟨(review_requested_actor_gate "haghdaee").1 rfl,
   (review_requested_actor_gate "bob").2 (by decide)⟩

/-- Claim C7 (amended): the scenario-B description resolves to
`acme`/`widgets`/`42`; a description from which no URL is extracted is
rejected as `NoTargetFound`; and an extracted first URL that does not
decompose under the pull-request pattern is rejected as `MalformedTarget`. -/
theorem task_target_resolution :
    resolveTaskTarget "see https://github.com/acme/widgets/pull/42 for details" =
      TaskOutcome.process "acme" "widgets" "42" ∧
    (∀ notes, extractPrUrlFromTask notes = none →
      resolveTaskTarget notes = TaskOutcome.noTarget) ∧
    (∀ notes url, extractPrUrlFromTask notes = some url →
      parseGithubUrl url = none → resolveTaskTarget notes = TaskOutcome.malformed) := by
  refine ⟨by decide, ?_, ?_⟩
  · intro notes h
    simp [resolveTaskTarget, h]
  · intro notes url h1 h2
    simp [resolveTaskTarget, h1, h2]

/-- Witness for the C7 theorem at concrete descriptions. -/
theorem task_target_resolution_witness :
    resolveTaskTarget "no link in this description" = TaskOutcome.noTarget ∧
    resolveTaskTarget "https://github.com/acme" = TaskOutcome.malformed :=
  ⟨task_target_resolution.2.1 "no link in this description" (by decide),
   task_target_resolution.2.2 "https://github.com/acme" "https://github.com/acme"
     (by decide) (by decide)⟩

/-- Claim C7 counterexample: extraction takes the first substring matching
the broader `https://github.com/[^\s]+` shape, not the first pull-request
URL: a bare repository link before a pull-request link makes resolution
fail as `MalformedTarget` instead of resolving the pull-request URL. -/
theorem first_url_not_pull_shaped :
    extractPrUrlFromTask
      "see https://github.com/acme and https://github.com/acme/widgets/pull/42" =
      some "https://github.com/acme" ∧
    resolveTaskTarget
      "see https://github.com/acme and https://github.com/acme/widgets/pull/42" =
      TaskOutcome.malformed ∧
    resolveTaskTarget
      "see https://github.com/acme and https://github.com/acme/widgets/pull/42" ≠
      TaskOutcome.process "acme" "widgets" "42" := by
  decide

/-- Claim C8: every branch of the Asana webhook of
`fetch_prs_final_asana.js` (handshake, empty delivery, processed
deliveries — with all per-event outcomes caught internally) responds with
status 200, and so does every branch of the GitHub webhook route handler. -/
theorem webhook_always_acknowledges (store : List String) (xhs : Option String)
    (events : Option (List AsanaEventEnv)) (e a r : String) :
    (asanaWebhookResponse store xhs events).1 = 200 ∧
    (githubWebhookHandler e a r).2 = 200 := by
  constructor
  · cases xhs with
    | some s => rfl
    | none =>
      cases events with
      | none => rfl
      | some evs =>
        cases evs with
        | nil => rfl
        | cons ev evs => rfl
  · unfold githubWebhookHandler
    split
    · split <;> rfl
    · rfl

/-- Claim C9: `parseGithubUrl` returns the number as the matched digit
string; every captured field is a non-empty string, hence truthy, so the
caller's `!owner || !repo || !prNumber` check never rejects a URL the
pattern matched — including a number component of `"0"`. -/
theorem parse_number_digit_string_truthy :
    (∀ url o r n, parseGithubUrl url = some (o, r, n) →
      n.data.all Char.isDigit = true ∧
      (jsFalsyStr o || jsFalsyStr r || jsFalsyStr n) = false) ∧
    (∀ notes url o r n, extractPrUrlFromTask notes = some url →
      parseGithubUrl url = some (o, r, n) →
      resolveTaskTarget notes = TaskOutcome.process o r n) ∧
    parseGithubUrl "https://github.com/a/b/pull/0" = some ("a", "b", "0") ∧
    resolveTaskTarget "https://github.com/a/b/pull/0" =
      TaskOutcome.process "a" "b" "0" := by
  have key : ∀ (url o r n : String), parseGithubUrl url = some (o, r, n) →
      n.data.all Char.isDigit = true ∧
      (jsFalsyStr o || jsFalsyStr r || jsFalsyStr n) = false := by
    intro url o r n h
    obtain ⟨ho, hr, hn, hd⟩ := parseGithubUrl_fields h
    refine ⟨hd, ?_⟩
    simp [jsFalsyStr, isEmpty_false_of_ne_nil _ ho, isEmpty_false_of_ne_nil _ hr,
      isEmpty_false_of_ne_nil _ hn]
  refine ⟨key, ?_, by decide, by decide⟩
  intro notes url o r n h1 h2
  have hfalsy := (key url o r n h2).2
  simp [resolveTaskTarget, h1, h2, hfalsy]

/-- Witness for the C9 theorem at a pull-request URL numbered `0`. -/
theorem parse_number_digit_string_truthy_witness :
    (jsFalsyStr "a" || jsFalsyStr "b" || jsFalsyStr "0") = false ∧
    resolveTaskTarget "https://github.com/a/b/pull/0" =
      TaskOutcome.process "a" "b" "0" :=
  ⟨(parse_number_digit_string_truthy.1 "https://github.com/a/b/pull/0" "a" "b" "0"
      (by decide)).2,
   parse_number_digit_string_truthy.2.1 "https://github.com/a/b/pull/0"
     "https://github.com/a/b/pull/0" "a" "b" "0" (by decide) (by decide)⟩

/-- Claim C10: when only whitespace (or nothing) follows the mention
marker, the extracted instruction is the empty string, and the pipeline
behaves exactly as with no instruction: the result of `processPullRequest`
is identical to the `null`-context run and the unconstrained prompt is
chosen. -/
theorem empty_instruction_unconstrained (text : String) (rest : List Char)
    (hinc : hasSubstr MARKER text.data = true)
    (hfind : findMarkerCI MARKER text.data = some rest)
    (hws : rest.all jsSpace = true)
    (pr : PR) (diff : String) (comments : List GHComment)
    (reason : ReasonResult) (pub : PubResult) :
    storyInstruction text = some (some "") ∧
    processPullRequest_final pr diff comments (some "") reason pub =
      processPullRequest_final pr diff comments none reason pub ∧
    (processPullRequest_final pr diff comments (some "") reason pub).constrained = false := by
  refine ⟨?_, ?_, ?_⟩
  · simp only [storyInstruction, storyInstructionL, hinc, if_true, hfind]
    rw [dropWhile_all_nil jsSpace rest hws]
    decide
  · cases reason <;> cases pub <;> rfl
  · cases reason <;> cases pub <;> rfl

/-- Witness for the C10 theorem at a marker followed by two spaces. -/
theorem empty_instruction_unconstrained_witness :
    storyInstruction "@AsanaPRBot  " = some (some "") ∧
    processPullRequest_final ⟨1, "T", none, [], [], []⟩ "d" [] (some "")
      (ReasonResult.ok "t") PubResult.ok =
    processPullRequest_final ⟨1, "T", none, [], [], []⟩ "d" [] none
      (ReasonResult.ok "t") PubResult.ok :=
  ⟨(empty_instruction_unconstrained "@AsanaPRBot  " "  ".data (by decide) (by decide)
      (by decide) ⟨1, "T", none, [], [], []⟩ "d" [] (ReasonResult.ok "t") PubResult.ok).1,
   (empty_instruction_unconstrained "@AsanaPRBot  " "  ".data (by decide) (by decide)
      (by decide) ⟨1, "T", none, [], [], []⟩ "d" [] (ReasonResult.ok "t") PubResult.ok).2.1⟩

end AsanaPRBot

